import Mathlib

/-!
Shallow embedding of the raffle bot (`src/raffle.py`): the `RaffleState`
data type and its operations, the database record format, and the
`RaffleComponent` command handlers, modelled as pure functions.

Python sets of strings are modelled as duplicate-free lists built with
`setAdd`; Python dicts as association lists with insertion-order append
semantics (`dictInsert` updates in place when the key exists, otherwise
appends). Randomness in `draw_winner` (`secrets.choice`) is modelled by an
oracle index `k` selecting the `k % length`-th element of the participant
list; quantifying over `k` covers every possible random pick.
-/

/-- Python `set.add` on a list representing a set: no-op when present,
append otherwise (iteration order is irrelevant to the properties proved). -/
def setAdd (x : String) (s : List String) : List String :=
  if x ∈ s then s else s ++ [x]

/-- Python dict assignment `d[k] = v`: update in place when `k` is a key,
append `(k, v)` otherwise (insertion order preserved, as in Python dicts). -/
def dictInsert {β : Type} (k : String) (v : β) : List (String × β) → List (String × β)
  | [] => [(k, v)]
  | (k', v') :: rest => if k' = k then (k', v) :: rest else (k', v') :: dictInsert k v rest

/-- Python dict lookup `d.get(k)`. -/
def dictGet {β : Type} (k : String) : List (String × β) → Option β
  | [] => none
  | (k', v) :: rest => if k' = k then some v else dictGet k rest

/-- The dataclass `RaffleState` from `src/raffle.py`. -/
structure RaffleState where
  is_active : Bool := false
  is_open : Bool := false
  participants : List String := []
  participant_names : List (String × String) := []
deriving DecidableEq

/-- `RaffleState.reset`: return to the all-default state. -/
def RaffleState.reset (_s : RaffleState) : RaffleState := {}

/-- `RaffleState.add_participant`: returns `(False, unchanged)` when the
user id is already present, otherwise inserts into both `participants` and
`participant_names` and returns `True`. -/
def RaffleState.add_participant (s : RaffleState) (user_id display_name : String) :
    Bool × RaffleState :=
  if user_id ∈ s.participants then (false, s)
  else (true,
    { s with participants := setAdd user_id s.participants,
             participant_names := dictInsert user_id display_name s.participant_names })

/-- `RaffleState.draw_winner`: `None` on an empty participant set, otherwise
the display name of the picked id, with literal `"Unknown"` as the lookup
fallback. `secrets.choice` is modelled by the oracle index `k`. -/
def RaffleState.draw_winner (s : RaffleState) (k : Nat) : Option String :=
  if h : s.participants = [] then none
  else
    let wid := s.participants.get
      ⟨k % s.participants.length, Nat.mod_lt k (List.length_pos.mpr h)⟩
    some ((dictGet wid s.participant_names).getD "Unknown")

/-- One `{user_id, display_name}` record of the persisted participants list. -/
structure DbParticipant where
  user_id : String
  display_name : String
deriving DecidableEq

/-- A database record as consumed by `from_db_format`: each key may be
absent (Python `dict.get` with a default). -/
structure DbRecord where
  is_active : Option Bool := none
  is_open : Option Bool := none
  participants : Option (List DbParticipant) := none
deriving DecidableEq

/-- `RaffleState.to_db_format`: flags plus the participants list built from
`participant_names.items()` in order. -/
def RaffleState.to_db_format (s : RaffleState) : DbRecord :=
  { is_active := some s.is_active,
    is_open := some s.is_open,
    participants := some (s.participant_names.map fun p => ⟨p.1, p.2⟩) }

/-- The body of the `for p in participants_list` loop of `from_db_format`. -/
def dbStep (st : RaffleState) (p : DbParticipant) : RaffleState :=
  { st with participants := setAdd p.user_id st.participants,
            participant_names := dictInsert p.user_id p.display_name st.participant_names }

/-- `RaffleState.from_db_format`: flags via `data.get(key, False)`, then the
participant loop folded over `data.get("participants", [])`. -/
def RaffleState.from_db_format (data : DbRecord) : RaffleState :=
  (data.participants.getD []).foldl dbStep
    { is_active := data.is_active.getD false, is_open := data.is_open.getD false }

/-- A `twitchio.Chatter` as the handlers observe it: identity plus the role
flags and the possibly-falsy `display_name`. -/
structure Chatter where
  id : String
  name : String
  display_name : Option String
  moderator : Bool
  subscriber : Bool
  vip : Bool
  broadcaster : Bool
deriving DecidableEq

/-- Python `ctx.chatter.display_name or ctx.chatter.name` (both `None` and
the empty string are falsy). -/
def Chatter.effectiveName (c : Chatter) : String :=
  match c.display_name with
  | some d => if d = "" then c.name else d
  | none => c.name

/-- The part of `commands.Context` the handlers read. -/
structure Ctx where
  chatter : Chatter
  broadcaster_id : String
deriving DecidableEq

/-- Observable effects of a handler run: chat output (`reply` to the caller,
`send` to the channel), persistence calls, and error logging. -/
inductive Effect where
  | reply (msg : String)
  | send (msg : String)
  | dbUpsert (broadcaster_id : String) (data : DbRecord)
  | dbDelete (broadcaster_id : String)
  | logError (msg : String)
deriving DecidableEq

/-- Chat-facing effects: what the chatters can see. -/
def Effect.isChat : Effect → Bool
  | .reply _ => true
  | .send _ => true
  | _ => false

/-- `RaffleComponent.raffles`: the broadcaster-id-keyed store. -/
abbrev RaffleStore := List (String × RaffleState)

/-- The raffle state a broadcaster id observes: the stored one, or the
default when no entry exists yet. -/
def stateOf (store : RaffleStore) (b : String) : RaffleState :=
  (dictGet b store).getD {}

/-- `RaffleComponent.get_raffle`: look the state up, inserting a fresh
default entry when the key is absent. -/
def get_raffle (store : RaffleStore) (b : String) : RaffleStore × RaffleState :=
  match dictGet b store with
  | some r => (store, r)
  | none => (dictInsert b {} store, {})

/-- `RaffleComponent.save_raffle`: no-op when the store has no entry;
otherwise attempt the upsert and, when the adapter raises (`dbOk = false`),
catch and log — the handler continues either way. -/
def save_raffle (store : RaffleStore) (b : String) (dbOk : Bool) : List Effect :=
  match dictGet b store with
  | none => []
  | some r =>
    if dbOk then [.dbUpsert b r.to_db_format]
    else [.dbUpsert b r.to_db_format, .logError "Failed to save raffle state"]

/-- `RaffleComponent.delete_raffle`: attempt the delete and, when the
adapter raises, catch and log. -/
def delete_raffle (b : String) (dbOk : Bool) : List Effect :=
  if dbOk then [.dbDelete b] else [.dbDelete b, .logError "Failed to delete raffle state"]

/-- `RaffleComponent.is_eligible`. -/
def is_eligible (c : Chatter) : Bool := c.vip || c.subscriber || c.moderator || c.broadcaster

/-- `RaffleComponent.can_manage`. -/
def can_manage (c : Chatter) : Bool := c.moderator || c.broadcaster

/-- The `!startraffle` handler `RaffleComponent.start_raffle`. -/
def RaffleComponent.start_raffle (store : RaffleStore) (ctx : Ctx) (dbOk : Bool) :
    RaffleStore × List Effect :=
  if !can_manage ctx.chatter then
    (store, [.reply "Only moderators and the broadcaster can start a raffle."])
  else
    let gr := get_raffle store ctx.broadcaster_id
    let store1 := gr.1
    let raffle := gr.2
    if raffle.is_active then (store1, [.reply "A raffle is already in progress."])
    else
      let store2 := dictInsert ctx.broadcaster_id
        { is_active := true, is_open := true } store1
      (store2, save_raffle store2 ctx.broadcaster_id dbOk ++
        [.send "Raffle started! VIPs, Subscribers, and Moderators can type !enter to enter."])

/-- The `!enter` handler `RaffleComponent.join_raffle`. Note the store
lookup precedes the bot-self check, and a successful entry produces no
reply, only the persistence attempt. -/
def RaffleComponent.join_raffle (bot_id : String) (store : RaffleStore) (ctx : Ctx)
    (dbOk : Bool) : RaffleStore × List Effect :=
  let gr := get_raffle store ctx.broadcaster_id
  let store1 := gr.1
  let raffle := gr.2
  if ctx.chatter.id = bot_id then (store1, [])
  else if !raffle.is_active then
    (store1, [.reply "There is no raffle happening right now."])
  else if !raffle.is_open then (store1, [.reply "Raffle entries are closed."])
  else if !is_eligible ctx.chatter then
    (store1, [.reply "Only VIPs, Subscribers, and Moderators can join."])
  else
    let display_name := ctx.chatter.effectiveName
    let res := raffle.add_participant ctx.chatter.id display_name
    if res.1 then
      let store2 := dictInsert ctx.broadcaster_id res.2 store1
      (store2, save_raffle store2 ctx.broadcaster_id dbOk)
    else
      (store1, [.reply (display_name ++ ", you have already joined.")])

/-- The participant-count broadcast of `end_raffle` (the Python f-string
with its conditional plural suffix). -/
def end_message (count : Nat) : String :=
  "Entries closed. " ++ toString count ++ " participant" ++
    (if count != 1 then "s" else "") ++ " entered."

/-- The `!endraffle` handler `RaffleComponent.end_raffle`. -/
def RaffleComponent.end_raffle (store : RaffleStore) (ctx : Ctx) (dbOk : Bool) :
    RaffleStore × List Effect :=
  if !can_manage ctx.chatter then
    (store, [.reply "Only moderators and the broadcaster can end a raffle."])
  else
    let gr := get_raffle store ctx.broadcaster_id
    let store1 := gr.1
    let raffle := gr.2
    if !raffle.is_active then (store1, [.reply "There is no raffle to end."])
    else if !raffle.is_open then
      (store1, [.reply "Entries are already closed. Use !draw to pick a winner."])
    else
      let raffle2 := { raffle with is_open := false }
      let store2 := dictInsert ctx.broadcaster_id raffle2 store1
      (store2, save_raffle store2 ctx.broadcaster_id dbOk ++
        [.send (end_message raffle2.participants.length)])

/-- The `!draw` handler `RaffleComponent.draw_winner`. `if winner:` is
Python truthiness: both `None` and the empty string take the
"No one entered" branch. -/
def RaffleComponent.draw_winner (store : RaffleStore) (ctx : Ctx) (k : Nat) (dbOk : Bool) :
    RaffleStore × List Effect :=
  if !can_manage ctx.chatter then
    (store, [.reply "Only moderators and the broadcaster can draw a winner."])
  else
    let gr := get_raffle store ctx.broadcaster_id
    let store1 := gr.1
    let raffle := gr.2
    if !raffle.is_active then (store1, [.reply "No raffle active. Start one with !startraffle"])
    else
      let closing := raffle.is_open
      let raffle2 := { raffle with is_open := false }
      let store2 := dictInsert ctx.broadcaster_id raffle2 store1
      let closedMsgs : List Effect := if closing then [.send "Entries closed."] else []
      let winner := raffle2.draw_winner k
      let winnerMsg : Effect :=
        match winner with
        | some w =>
          if w = "" then .send "No one entered the raffle."
          else .send ("The winner is @" ++ w ++ " !! Congratulations!")
        | none => .send "No one entered the raffle."
      let store3 := dictInsert ctx.broadcaster_id ({} : RaffleState) store2
      (store3, closedMsgs ++ [winnerMsg] ++ delete_raffle ctx.broadcaster_id dbOk)

/-- The cancellation broadcast of `cancel_raffle` (the Python f-string with
its conditional was/were suffix). -/
def cancel_message (count : Nat) : String :=
  "Raffle cancelled. " ++ toString count ++ " participant" ++
    (if count != 1 then "s were" else " was") ++ " entered."

/-- The `!cancelraffle` handler `RaffleComponent.cancel_raffle`. -/
def RaffleComponent.cancel_raffle (store : RaffleStore) (ctx : Ctx) (dbOk : Bool) :
    RaffleStore × List Effect :=
  if !can_manage ctx.chatter then
    (store, [.reply "Only moderators and the broadcaster can cancel a raffle."])
  else
    let gr := get_raffle store ctx.broadcaster_id
    let store1 := gr.1
    let raffle := gr.2
    if !raffle.is_active then (store1, [.reply "There is no raffle to cancel."])
    else
      let count := raffle.participants.length
      let store2 := dictInsert ctx.broadcaster_id ({} : RaffleState) store1
      (store2, delete_raffle ctx.broadcaster_id dbOk ++ [.send (cancel_message count)])

/-- The `!participants` handler `RaffleComponent.show_participants`. -/
def RaffleComponent.show_participants (store : RaffleStore) (ctx : Ctx) :
    RaffleStore × List Effect :=
  let gr := get_raffle store ctx.broadcaster_id
  let store1 := gr.1
  let raffle := gr.2
  if !raffle.is_active then (store1, [.reply "No raffle happening."])
  else
    (store1, [.reply ("Status: " ++ (if raffle.is_open then "Open" else "Closed") ++
      " | Participants: " ++ toString raffle.participants.length)])

/-- The two documented `RaffleState` invariants: `is_open ⇒ is_active`, and
`participants` has the same members as the key set of `participant_names`. -/
def RaffleInv (s : RaffleState) : Prop :=
  (s.is_open = true → s.is_active = true) ∧
  (∀ x, x ∈ s.participants ↔ x ∈ s.participant_names.map Prod.fst)

/-- Every raffle state observable in the store satisfies the invariants. -/
def StoreInv (store : RaffleStore) : Prop :=
  ∀ b, RaffleInv (stateOf store b)

theorem mem_setAdd {x a : String} {s : List String} :
    x ∈ setAdd a s ↔ x = a ∨ x ∈ s := by
  unfold setAdd
  split
  case isTrue h =>
    constructor
    · exact Or.inr
    · rintro (rfl | hx)
      · exact h
      · exact hx
  case isFalse h => simp [List.mem_append, or_comm]

theorem nodup_setAdd {a : String} {s : List String} (h : s.Nodup) :
    (setAdd a s).Nodup := by
  unfold setAdd
  split
  case isTrue => exact h
  case isFalse ha => simpa using List.Nodup.append h (List.nodup_singleton a) (by simpa using ha)

theorem dictGet_dictInsert {β : Type} (k k' : String) (v : β) (d : List (String × β)) :
    dictGet k' (dictInsert k v d) = if k = k' then some v else dictGet k' d := by
  induction d with
  | nil => simp [dictInsert, dictGet]
  | cons p rest ih =>
    obtain ⟨k0, v0⟩ := p
    by_cases h0 : k0 = k
    · subst h0
      simp only [dictInsert, if_pos rfl, dictGet]
      by_cases h1 : k0 = k' <;> simp [h1]
    · simp only [dictInsert, if_neg h0, dictGet, ih]
      by_cases h1 : k0 = k'
      · subst h1
        have hk : k ≠ k0 := fun h => h0 h.symm
        simp [hk]
      · simp [h1]

theorem mem_keys_dictInsert {β : Type} {x k : String} {v : β} {d : List (String × β)} :
    x ∈ (dictInsert k v d).map Prod.fst ↔ x = k ∨ x ∈ d.map Prod.fst := by
  induction d with
  | nil => simp [dictInsert, eq_comm]
  | cons p rest ih =>
    obtain ⟨k0, v0⟩ := p
    by_cases h0 : k0 = k
    · subst h0
      simp [dictInsert, eq_comm]
    · simp only [dictInsert, if_neg h0, List.map_cons, List.mem_cons, ih]
      tauto

theorem dictGet_isSome_iff {β : Type} {k : String} {d : List (String × β)} :
    (dictGet k d).isSome = true ↔ k ∈ d.map Prod.fst := by
  induction d with
  | nil => simp [dictGet]
  | cons p rest ih =>
    obtain ⟨k0, v0⟩ := p
    by_cases h0 : k0 = k
    · subst h0
      simp [dictGet]
    · have hk : k ≠ k0 := fun h => h0 h.symm
      simp [dictGet, if_neg h0, ih, hk]

theorem dictGet_mem_values {β : Type} {k : String} {v : β} {d : List (String × β)}
    (h : dictGet k d = some v) : v ∈ d.map Prod.snd := by
  induction d with
  | nil => simp [dictGet] at h
  | cons p rest ih =>
    obtain ⟨k0, v0⟩ := p
    by_cases h0 : k0 = k
    · have hv : v0 = v := by
        subst h0
        simpa [dictGet] using h
      subst hv
      simp
    · have h' : dictGet k rest = some v := by simpa [dictGet, h0] using h
      simp [ih h']

theorem stateOf_dictInsert (b b' : String) (s : RaffleState) (store : RaffleStore) :
    stateOf (dictInsert b s store) b' = if b = b' then s else stateOf store b' := by
  unfold stateOf
  rw [dictGet_dictInsert]
  split <;> rfl

theorem get_raffle_snd (store : RaffleStore) (b : String) :
    (get_raffle store b).2 = stateOf store b := by
  unfold get_raffle stateOf
  cases h : dictGet b store <;> simp [h]

theorem dictGet_get_raffle_fst (store : RaffleStore) (b b' : String) :
    dictGet b' (get_raffle store b).1 =
      if b = b' then some (stateOf store b) else dictGet b' store := by
  unfold get_raffle stateOf
  cases h : dictGet b store with
  | some r =>
    simp only [h]
    split
    case isTrue hb => subst hb; simp [h]
    case isFalse hb => rfl
  | none =>
    simp only [h]
    rw [dictGet_dictInsert]
    split <;> simp [h]

theorem stateOf_get_raffle_fst (store : RaffleStore) (b b' : String) :
    stateOf (get_raffle store b).1 b' = stateOf store b' := by
  unfold stateOf
  rw [dictGet_get_raffle_fst]
  split
  case isTrue hb => subst hb; rfl
  case isFalse hb => rfl

/-- A concrete moderator context for instantiating universally quantified
results. -/
def modCtx : Ctx :=
  { chatter := { id := "m1", name := "modname", display_name := some "ModName",
                 moderator := true, subscriber := false, vip := false, broadcaster := false },
    broadcaster_id := "b1" }

/-- A concrete role-less (ineligible, non-managing) context. -/
def plebCtx : Ctx :=
  { chatter := { id := "p1", name := "plebname", display_name := some "Pleb",
                 moderator := false, subscriber := false, vip := false, broadcaster := false },
    broadcaster_id := "b1" }

/-- A concrete subscriber (eligible, non-managing) context. -/
def subCtx : Ctx :=
  { chatter := { id := "s1", name := "subname", display_name := some "SubName",
                 moderator := false, subscriber := true, vip := false, broadcaster := false },
    broadcaster_id := "b1" }

theorem dbFold_is_active (l : List DbParticipant) (init : RaffleState) :
    (l.foldl dbStep init).is_active = init.is_active := by
  induction l generalizing init with
  | nil => rfl
  | cons p rest ih =>
    rw [List.foldl_cons, ih]
    rfl

theorem dbFold_is_open (l : List DbParticipant) (init : RaffleState) :
    (l.foldl dbStep init).is_open = init.is_open := by
  induction l generalizing init with
  | nil => rfl
  | cons p rest ih =>
    rw [List.foldl_cons, ih]
    rfl

theorem mem_dbFold_participants (l : List DbParticipant) (init : RaffleState) (x : String) :
    x ∈ (l.foldl dbStep init).participants ↔
      x ∈ init.participants ∨ x ∈ l.map DbParticipant.user_id := by
  induction l generalizing init with
  | nil => simp
  | cons p rest ih =>
    rw [List.foldl_cons, ih]
    have hstep : (dbStep init p).participants = setAdd p.user_id init.participants := rfl
    rw [hstep, mem_setAdd]
    simp only [List.map_cons, List.mem_cons]
    tauto

theorem mem_dbFold_keys (l : List DbParticipant) (init : RaffleState) (x : String) :
    x ∈ (l.foldl dbStep init).participant_names.map Prod.fst ↔
      x ∈ init.participant_names.map Prod.fst ∨ x ∈ l.map DbParticipant.user_id := by
  induction l generalizing init with
  | nil => simp
  | cons p rest ih =>
    rw [List.foldl_cons, ih]
    have hstep : (dbStep init p).participant_names =
        dictInsert p.user_id p.display_name init.participant_names := rfl
    rw [hstep, mem_keys_dictInsert]
    simp only [List.map_cons, List.mem_cons]
    tauto

theorem raffleInv_default : RaffleInv ({} : RaffleState) := by
  constructor
  · intro h
    simpa using h
  · intro x
    constructor <;> (intro h; simpa using h)

theorem raffleInv_add {s : RaffleState} (u n : String) (h : RaffleInv s) :
    RaffleInv (s.add_participant u n).2 := by
  obtain ⟨h1, h2⟩ := h
  by_cases hu : u ∈ s.participants
  · simpa [RaffleState.add_participant, hu] using ⟨h1, h2⟩
  · have hsnd : (s.add_participant u n).2 =
        { s with participants := setAdd u s.participants,
                 participant_names := dictInsert u n s.participant_names } := by
      simp [RaffleState.add_participant, hu]
    rw [hsnd]
    constructor
    · intro hh
      exact h1 hh
    · intro x
      show x ∈ setAdd u s.participants ↔ x ∈ (dictInsert u n s.participant_names).map Prod.fst
      rw [mem_setAdd, mem_keys_dictInsert, h2 x]

theorem raffleInv_close {s : RaffleState} (h : RaffleInv s) :
    RaffleInv { s with is_open := false } := by
  constructor
  · intro hh
    simpa using hh
  · exact h.2

theorem raffleInv_of_closed {a : Bool} {ps : List String} {pn : List (String × String)}
    (hk : ∀ x, x ∈ ps ↔ x ∈ pn.map Prod.fst) :
    RaffleInv { is_active := a, is_open := false, participants := ps,
                participant_names := pn } := by
  constructor
  · intro hh
    simpa using hh
  · exact hk

theorem from_db_keyset (data : DbRecord) (x : String) :
    x ∈ (RaffleState.from_db_format data).participants ↔
      x ∈ (RaffleState.from_db_format data).participant_names.map Prod.fst := by
  unfold RaffleState.from_db_format
  rw [mem_dbFold_participants, mem_dbFold_keys]
  simp

theorem raffleInv_from_db (data : DbRecord)
    (h : data.is_open.getD false = true → data.is_active.getD false = true) :
    RaffleInv (RaffleState.from_db_format data) := by
  refine ⟨?_, from_db_keyset data⟩
  intro ho
  unfold RaffleState.from_db_format at ho ⊢
  rw [dbFold_is_active]
  rw [dbFold_is_open] at ho
  exact h ho

theorem storeInv_dictInsert {store : RaffleStore} {s : RaffleState} (b : String)
    (h : StoreInv store) (hs : RaffleInv s) : StoreInv (dictInsert b s store) := by
  intro b'
  rw [stateOf_dictInsert]
  split
  · exact hs
  · exact h b'

theorem storeInv_get_raffle {store : RaffleStore} (b : String) (h : StoreInv store) :
    StoreInv (get_raffle store b).1 := by
  intro b'
  rw [stateOf_get_raffle_fst]
  exact h b'

theorem storeInv_start (store : RaffleStore) (ctx : Ctx) (dbOk : Bool) (h : StoreInv store) :
    StoreInv (RaffleComponent.start_raffle store ctx dbOk).1 := by
  unfold RaffleComponent.start_raffle
  cases hm : can_manage ctx.chatter with
  | false => simpa [hm] using h
  | true =>
    simp only [hm, Bool.not_true, Bool.false_eq_true, if_false]
    cases hact : (get_raffle store ctx.broadcaster_id).2.is_active with
    | true => simpa [hact] using storeInv_get_raffle ctx.broadcaster_id h
    | false =>
      simp only [hact, Bool.false_eq_true, if_false]
      exact storeInv_dictInsert _ (storeInv_get_raffle _ h)
        ⟨fun _ => rfl, fun x => by constructor <;> (intro hx; simpa using hx)⟩

theorem storeInv_join (bot_id : String) (store : RaffleStore) (ctx : Ctx) (dbOk : Bool)
    (h : StoreInv store) :
    StoreInv (RaffleComponent.join_raffle bot_id store ctx dbOk).1 := by
  unfold RaffleComponent.join_raffle
  have hgr := storeInv_get_raffle ctx.broadcaster_id h
  by_cases hbot : ctx.chatter.id = bot_id
  · simpa [hbot] using hgr
  · simp only [if_neg hbot]
    cases hact : (get_raffle store ctx.broadcaster_id).2.is_active with
    | false => simpa [hact] using hgr
    | true =>
      simp only [hact, Bool.not_true, Bool.false_eq_true, if_false]
      cases hop : (get_raffle store ctx.broadcaster_id).2.is_open with
      | false => simpa [hop] using hgr
      | true =>
        simp only [hop, Bool.not_true, Bool.false_eq_true, if_false]
        cases hel : is_eligible ctx.chatter with
        | false => simpa [hel] using hgr
        | true =>
          simp only [hel, Bool.not_true, Bool.false_eq_true, if_false]
          cases hadd : ((get_raffle store ctx.broadcaster_id).2.add_participant
              ctx.chatter.id ctx.chatter.effectiveName).1 with
          | false => simpa [hadd] using hgr
          | true =>
            simp only [hadd, if_true]
            refine storeInv_dictInsert _ hgr ?_
            refine raffleInv_add _ _ ?_
            rw [get_raffle_snd]
            exact h ctx.broadcaster_id

theorem storeInv_end (store : RaffleStore) (ctx : Ctx) (dbOk : Bool) (h : StoreInv store) :
    StoreInv (RaffleComponent.end_raffle store ctx dbOk).1 := by
  unfold RaffleComponent.end_raffle
  have hgr := storeInv_get_raffle ctx.broadcaster_id h
  cases hm : can_manage ctx.chatter with
  | false => simpa [hm] using h
  | true =>
    simp only [hm, Bool.not_true, Bool.false_eq_true, if_false]
    cases hact : (get_raffle store ctx.broadcaster_id).2.is_active with
    | false => simpa [hact] using hgr
    | true =>
      simp only [hact, Bool.not_true, Bool.false_eq_true, if_false]
      cases hop : (get_raffle store ctx.broadcaster_id).2.is_open with
      | false => simpa [hop] using hgr
      | true =>
        simp only [hop, Bool.not_true, Bool.false_eq_true, if_false]
        refine storeInv_dictInsert _ hgr (raffleInv_of_closed fun x => ?_)
        have hx := (h ctx.broadcaster_id).2 x
        rw [← get_raffle_snd store ctx.broadcaster_id] at hx
        exact hx

theorem storeInv_draw (store : RaffleStore) (ctx : Ctx) (k : Nat) (dbOk : Bool)
    (h : StoreInv store) :
    StoreInv (RaffleComponent.draw_winner store ctx k dbOk).1 := by
  unfold RaffleComponent.draw_winner
  have hgr := storeInv_get_raffle ctx.broadcaster_id h
  cases hm : can_manage ctx.chatter with
  | false => simpa [hm] using h
  | true =>
    simp only [hm, Bool.not_true, Bool.false_eq_true, if_false]
    cases hact : (get_raffle store ctx.broadcaster_id).2.is_active with
    | false => simpa [hact] using hgr
    | true =>
      simp only [hact, Bool.not_true, Bool.false_eq_true, if_false]
      refine storeInv_dictInsert _
        (storeInv_dictInsert _ hgr (raffleInv_of_closed fun x => ?_)) raffleInv_default
      have hx := (h ctx.broadcaster_id).2 x
      rw [← get_raffle_snd store ctx.broadcaster_id] at hx
      exact hx

theorem storeInv_cancel (store : RaffleStore) (ctx : Ctx) (dbOk : Bool) (h : StoreInv store) :
    StoreInv (RaffleComponent.cancel_raffle store ctx dbOk).1 := by
  unfold RaffleComponent.cancel_raffle
  have hgr := storeInv_get_raffle ctx.broadcaster_id h
  cases hm : can_manage ctx.chatter with
  | false => simpa [hm] using h
  | true =>
    simp only [hm, Bool.not_true, Bool.false_eq_true, if_false]
    cases hact : (get_raffle store ctx.broadcaster_id).2.is_active with
    | false => simpa [hact] using hgr
    | true =>
      simp only [hact, Bool.not_true, Bool.false_eq_true, if_false]
      exact storeInv_dictInsert _ hgr raffleInv_default

theorem storeInv_show (store : RaffleStore) (ctx : Ctx) (h : StoreInv store) :
    StoreInv (RaffleComponent.show_participants store ctx).1 := by
  unfold RaffleComponent.show_participants
  have hgr := storeInv_get_raffle ctx.broadcaster_id h
  cases hact : (get_raffle store ctx.broadcaster_id).2.is_active with
  | false => simpa [hact] using hgr
  | true => simpa [hact] using hgr

/-- C1 (amended): the default state satisfies both invariants; `reset`,
`add_participant`, and every command handler preserve them (for handlers:
every state observable in the store keeps satisfying them);
`from_db_format` establishes the key-set invariant on every input record,
and establishes both invariants whenever the record itself satisfies
`is_open ⇒ is_active` (in particular for the `is_active = true` rows the
program loads) — but not on arbitrary records. -/
theorem c1_invariants :
    RaffleInv ({} : RaffleState) ∧
    (∀ s : RaffleState, RaffleInv s.reset) ∧
    (∀ (s : RaffleState) (u n : String), RaffleInv s → RaffleInv (s.add_participant u n).2) ∧
    (∀ (data : DbRecord) (x : String),
      x ∈ (RaffleState.from_db_format data).participants ↔
        x ∈ (RaffleState.from_db_format data).participant_names.map Prod.fst) ∧
    (∀ data : DbRecord, (data.is_open.getD false = true → data.is_active.getD false = true) →
      RaffleInv (RaffleState.from_db_format data)) ∧
    (∀ (store : RaffleStore) (ctx : Ctx) (dbOk : Bool), StoreInv store →
      StoreInv (RaffleComponent.start_raffle store ctx dbOk).1) ∧
    (∀ (bot_id : String) (store : RaffleStore) (ctx : Ctx) (dbOk : Bool), StoreInv store →
      StoreInv (RaffleComponent.join_raffle bot_id store ctx dbOk).1) ∧
    (∀ (store : RaffleStore) (ctx : Ctx) (dbOk : Bool), StoreInv store →
      StoreInv (RaffleComponent.end_raffle store ctx dbOk).1) ∧
    (∀ (store : RaffleStore) (ctx : Ctx) (k : Nat) (dbOk : Bool), StoreInv store →
      StoreInv (RaffleComponent.draw_winner store ctx k dbOk).1) ∧
    (∀ (store : RaffleStore) (ctx : Ctx) (dbOk : Bool), StoreInv store →
      StoreInv (RaffleComponent.cancel_raffle store ctx dbOk).1) ∧
    (∀ (store : RaffleStore) (ctx : Ctx), StoreInv store →
      StoreInv (RaffleComponent.show_participants store ctx).1) :=
  ⟨raffleInv_default, fun _ => raffleInv_default,
   fun _ u n h => raffleInv_add u n h,
   fun data x => from_db_keyset data x,
   fun data h => raffleInv_from_db data h,
   fun store ctx dbOk h => storeInv_start store ctx dbOk h,
   fun bot_id store ctx dbOk h => storeInv_join bot_id store ctx dbOk h,
   fun store ctx dbOk h => storeInv_end store ctx dbOk h,
   fun store ctx k dbOk h => storeInv_draw store ctx k dbOk h,
   fun store ctx dbOk h => storeInv_cancel store ctx dbOk h,
   fun store ctx h => storeInv_show store ctx h⟩

/-- C1 counterexample: `from_db_format` applied to the record
`{"is_open": true}` (no `is_active` key) yields a state with
`is_open = true` and `is_active = false`, violating `is_open ⇒ is_active`;
so `from_db_format` does not establish the invariants on every input
record, as the claim states. -/
theorem c1_counterexample :
    ¬ RaffleInv (RaffleState.from_db_format { is_open := some true }) := by
  intro h
  have hopen : (RaffleState.from_db_format { is_open := some true }).is_open = true := rfl
  have hact := h.1 hopen
  exact absurd hact (by decide)

/-- C1 witness: the amended theorem applied at a concrete input — the
`!startraffle` handler run by a moderator on the empty store preserves the
store-wide invariant. -/
theorem c1_witness :
    StoreInv (RaffleComponent.start_raffle [] modCtx true).1 :=
  c1_invariants.2.2.2.2.2.1 [] modCtx true
    (fun b => by
      have hb : stateOf ([] : RaffleStore) b = {} := rfl
      rw [hb]
      exact raffleInv_default)

theorem dictGet_of_mem_keys {β : Type} {k : String} {d : List (String × β)}
    (h : k ∈ d.map Prod.fst) : ∃ v, dictGet k d = some v := by
  have := dictGet_isSome_iff.mpr h
  cases hg : dictGet k d with
  | none => rw [hg] at this; simp at this
  | some v => exact ⟨v, rfl⟩

/-- C2: `draw_winner` returns `None` exactly on the empty participant set;
on a non-empty set whose participants equal the key set of
`participant_names` it returns, for every possible random pick `k`, a
display name obtained by a successful name lookup (so the `"Unknown"`
fallback is unreachable) that is a value of `participant_names`. -/
theorem c2_draw_winner (s : RaffleState) (k : Nat) :
    (s.participants = [] → s.draw_winner k = none) ∧
    (s.participants ≠ [] →
      (∀ x, x ∈ s.participants ↔ x ∈ s.participant_names.map Prod.fst) →
      ∃ name, s.draw_winner k = some name ∧
        name ∈ s.participant_names.map Prod.snd ∧
        ∃ uid, uid ∈ s.participants ∧ dictGet uid s.participant_names = some name) := by
  constructor
  · intro he
    unfold RaffleState.draw_winner
    rw [dif_pos he]
  · intro hne hkeys
    unfold RaffleState.draw_winner
    rw [dif_neg hne]
    set wid := s.participants.get
      ⟨k % s.participants.length, Nat.mod_lt k (List.length_pos.mpr hne)⟩ with hwid
    have hmem : wid ∈ s.participants := List.get_mem _ _ _
    obtain ⟨v, hv⟩ := dictGet_of_mem_keys ((hkeys wid).mp hmem)
    refine ⟨v, ?_, dictGet_mem_values hv, wid, hmem, hv⟩
    simp [hv]

/-- A concrete one-participant state with a matching name table, used in
instantiations. -/
def aliceState : RaffleState :=
  { is_active := true, is_open := true, participants := ["u1"],
    participant_names := [("u1", "Alice")] }

/-- C2 witness: both conjuncts at concrete inputs — the empty state, and a
one-participant state with a matching name table. -/
theorem c2_witness :
    (({} : RaffleState).draw_winner 0 = none) ∧
    (∃ name, aliceState.draw_winner 0 = some name ∧
      name ∈ aliceState.participant_names.map Prod.snd ∧
      ∃ uid, uid ∈ aliceState.participants ∧
        dictGet uid aliceState.participant_names = some name) :=
  ⟨(c2_draw_winner {} 0).1 rfl,
   (c2_draw_winner aliceState 0).2 (by decide) (fun x => Iff.rfl)⟩

/-- Running a sequence of `add_participant` calls from a state, collecting
each call's returned Bool in order. -/
def runAdds (s : RaffleState) : List (String × String) → RaffleState × List Bool
  | [] => (s, [])
  | (u, n) :: rest =>
    let r := s.add_participant u n
    let t := runAdds r.2 rest
    (t.1, r.1 :: t.2)

theorem mem_add_participant (s : RaffleState) (u n x : String) :
    x ∈ (s.add_participant u n).2.participants ↔ x = u ∨ x ∈ s.participants := by
  unfold RaffleState.add_participant
  by_cases hu : u ∈ s.participants
  · rw [if_pos hu]
    constructor
    · exact Or.inr
    · rintro (rfl | hx)
      · exact hu
      · exact hx
  · rw [if_neg hu]
    exact mem_setAdd

theorem mem_runAdds (calls : List (String × String)) (s : RaffleState) (x : String) :
    x ∈ (runAdds s calls).1.participants ↔
      x ∈ s.participants ∨ x ∈ calls.map Prod.fst := by
  induction calls generalizing s with
  | nil => simp [runAdds]
  | cons c rest ih =>
    obtain ⟨u, n⟩ := c
    show x ∈ (runAdds (s.add_participant u n).2 rest).1.participants ↔ _
    rw [ih, mem_add_participant]
    simp only [List.map_cons, List.mem_cons]
    tauto

theorem nodup_add_participant {s : RaffleState} (u n : String)
    (h : s.participants.Nodup) : (s.add_participant u n).2.participants.Nodup := by
  unfold RaffleState.add_participant
  by_cases hu : u ∈ s.participants
  · rw [if_pos hu]
    exact h
  · rw [if_neg hu]
    exact nodup_setAdd h

theorem nodup_runAdds (calls : List (String × String)) {s : RaffleState}
    (h : s.participants.Nodup) : (runAdds s calls).1.participants.Nodup := by
  induction calls generalizing s with
  | nil => exact h
  | cons c rest ih =>
    obtain ⟨u, n⟩ := c
    exact ih (nodup_add_participant u n h)

/-- C3: a call with an already-present user id returns `False` and leaves
the state unchanged; a call with a fresh user id returns `True` and inserts
into both `participants` and `participant_names`; after any sequence
containing a call with user id `u`, every later call with `u` returns
`False`; and the participant count of a run never exceeds the initial count
plus the number of distinct user ids offered (so from the fresh default
state, never the number of distinct user ids offered). -/
theorem c3_add_sequences :
    (∀ (s : RaffleState) (u n : String), u ∈ s.participants →
      s.add_participant u n = (false, s)) ∧
    (∀ (s : RaffleState) (u n : String), u ∉ s.participants →
      (s.add_participant u n).1 = true ∧
      u ∈ (s.add_participant u n).2.participants ∧
      dictGet u (s.add_participant u n).2.participant_names = some n) ∧
    (∀ (s : RaffleState) (pre : List (String × String)) (u n1 : String)
        (mid : List (String × String)) (n2 : String),
      ((runAdds (runAdds s (pre ++ [(u, n1)])).1 mid).1.add_participant u n2).1 = false) ∧
    (∀ (s : RaffleState) (calls : List (String × String)), s.participants.Nodup →
      (runAdds s calls).1.participants.length ≤
        s.participants.length + (calls.map Prod.fst).dedup.length) := by
  refine ⟨?_, ?_, ?_, ?_⟩
  · intro s u n hu
    unfold RaffleState.add_participant
    rw [if_pos hu]
  · intro s u n hu
    refine ⟨?_, ?_, ?_⟩
    · unfold RaffleState.add_participant
      rw [if_neg hu]
    · rw [mem_add_participant]
      exact Or.inl rfl
    · unfold RaffleState.add_participant
      rw [if_neg hu]
      show dictGet u (dictInsert u n s.participant_names) = some n
      rw [dictGet_dictInsert, if_pos rfl]
  · intro s pre u n1 mid n2
    have hu : u ∈ (runAdds (runAdds s (pre ++ [(u, n1)])).1 mid).1.participants := by
      rw [mem_runAdds]
      refine Or.inl ?_
      rw [mem_runAdds]
      refine Or.inr ?_
      simp
    unfold RaffleState.add_participant
    rw [if_pos hu]
  · intro s calls hnd
    have hsub : (runAdds s calls).1.participants.toFinset ⊆
        s.participants.toFinset ∪ (calls.map Prod.fst).toFinset := by
      intro x hx
      rw [List.mem_toFinset, mem_runAdds] at hx
      rw [Finset.mem_union, List.mem_toFinset, List.mem_toFinset]
      exact hx
    have h1 : (runAdds s calls).1.participants.length =
        (runAdds s calls).1.participants.toFinset.card :=
      (List.toFinset_card_of_nodup (nodup_runAdds calls hnd)).symm
    have h2 : s.participants.toFinset.card = s.participants.length :=
      List.toFinset_card_of_nodup hnd
    have h3 : (calls.map Prod.fst).toFinset.card = (calls.map Prod.fst).dedup.length :=
      List.card_toFinset _
    calc (runAdds s calls).1.participants.length
        = (runAdds s calls).1.participants.toFinset.card := h1
      _ ≤ (s.participants.toFinset ∪ (calls.map Prod.fst).toFinset).card :=
          Finset.card_le_card hsub
      _ ≤ s.participants.toFinset.card + (calls.map Prod.fst).toFinset.card :=
          Finset.card_union_le _ _
      _ = s.participants.length + (calls.map Prod.fst).dedup.length := by rw [h2, h3]

/-- C3 witness: the conjuncts instantiated at concrete inputs — a repeat
entry for "u1" in a two-call run returns `False`, and the count bound holds
from the default state. -/
theorem c3_witness :
    (aliceState.add_participant "u1" "Alice" = (false, aliceState)) ∧
    (("u2" ∉ aliceState.participants) ∧
      (aliceState.add_participant "u2" "Bob").1 = true) ∧
    ((runAdds (runAdds ({} : RaffleState) ([] ++ [("u1", "Alice")])).1
        []).1.add_participant "u1" "Bob").1 = false ∧
    (runAdds ({} : RaffleState) [("u1", "Alice"), ("u1", "Bob")]).1.participants.length ≤
      ([] : List String).length + ([("u1", "Alice"), ("u1", "Bob")].map Prod.fst).dedup.length :=
  ⟨c3_add_sequences.1 aliceState "u1" "Alice" (by decide),
   ⟨by decide, (c3_add_sequences.2.1 aliceState "u2" "Bob" (by decide)).1⟩,
   c3_add_sequences.2.2.1 {} [] "u1" "Alice" [] "Bob",
   c3_add_sequences.2.2.2 {} [("u1", "Alice"), ("u1", "Bob")] (by decide)⟩

theorem draw_winner_ignores_open (s : RaffleState) (k : Nat) :
    ({ s with is_open := false } : RaffleState).draw_winner k = s.draw_winner k := rfl

theorem draw_winner_flag_irrel (a b : Bool) (s : RaffleState) (k : Nat) :
    (RaffleState.mk a b s.participants s.participant_names).draw_winner k =
      s.draw_winner k := rfl

theorem draw_handler_eq (store : RaffleStore) (ctx : Ctx) (k : Nat) (dbOk : Bool)
    (hm : can_manage ctx.chatter = true)
    (hact : (stateOf store ctx.broadcaster_id).is_active = true) :
    RaffleComponent.draw_winner store ctx k dbOk =
      (dictInsert ctx.broadcaster_id {} (dictInsert ctx.broadcaster_id
          { stateOf store ctx.broadcaster_id with is_open := false }
          (get_raffle store ctx.broadcaster_id).1),
       (if (stateOf store ctx.broadcaster_id).is_open then
          [Effect.send "Entries closed."] else []) ++
         [match (stateOf store ctx.broadcaster_id).draw_winner k with
          | some w =>
            if w = "" then Effect.send "No one entered the raffle."
            else Effect.send ("The winner is @" ++ w ++ " !! Congratulations!")
          | none => Effect.send "No one entered the raffle."] ++
         delete_raffle ctx.broadcaster_id dbOk) := by
  have hr : (get_raffle store ctx.broadcaster_id).2 = stateOf store ctx.broadcaster_id :=
    get_raffle_snd store ctx.broadcaster_id
  unfold RaffleComponent.draw_winner
  simp only [hm, Bool.not_true, Bool.false_eq_true, if_false, hr, hact, if_true]
  rw [draw_winner_flag_irrel]

/-- C4 (amended): when a managing caller draws on an active state, the
broadcaster's state afterwards is the default (fully reset) and the
persistence delete is attempted, regardless of outcome; when entries were
open the first broadcast is "Entries closed."; and the outcome broadcast is
the winner announcement when the drawn display name is non-empty, but the
"No one entered" broadcast when the participant set is empty OR the drawn
display name is the empty string (Python truthiness of `if winner:`). -/
theorem c4_draw_outcome (store : RaffleStore) (ctx : Ctx) (k : Nat) (dbOk : Bool)
    (hm : can_manage ctx.chatter = true)
    (hact : (stateOf store ctx.broadcaster_id).is_active = true) :
    stateOf (RaffleComponent.draw_winner store ctx k dbOk).1 ctx.broadcaster_id = {} ∧
    Effect.dbDelete ctx.broadcaster_id ∈ (RaffleComponent.draw_winner store ctx k dbOk).2 ∧
    ((stateOf store ctx.broadcaster_id).is_open = true →
      (RaffleComponent.draw_winner store ctx k dbOk).2.head? =
        some (Effect.send "Entries closed.")) ∧
    (match (stateOf store ctx.broadcaster_id).draw_winner k with
     | some w =>
       if w = "" then
         Effect.send "No one entered the raffle." ∈
           (RaffleComponent.draw_winner store ctx k dbOk).2
       else
         Effect.send ("The winner is @" ++ w ++ " !! Congratulations!") ∈
           (RaffleComponent.draw_winner store ctx k dbOk).2
     | none =>
       Effect.send "No one entered the raffle." ∈
         (RaffleComponent.draw_winner store ctx k dbOk).2) := by
  rw [draw_handler_eq store ctx k dbOk hm hact]
  refine ⟨?_, ?_, ?_, ?_⟩
  · rw [stateOf_dictInsert, if_pos rfl]
  · cases dbOk <;> simp [delete_raffle]
  · intro hop
    simp [hop]
  · cases hdw : (stateOf store ctx.broadcaster_id).draw_winner k with
    | none => simp
    | some w =>
      by_cases hw : w = ""
      · simp [hw]
      · simp [hw]

/-- A closed active state with one participant whose stored display name is
the empty string. -/
def emptyNameState : RaffleState :=
  { is_active := true, is_open := false, participants := ["u0"],
    participant_names := [("u0", "")] }

/-- A closed active state with one participant named "Bob". -/
def bobState : RaffleState :=
  { is_active := true, is_open := false, participants := ["u2"],
    participant_names := [("u2", "Bob")] }

/-- C4 counterexample: drawing (as a moderator, pick `k = 0`) on an active
state whose participant set is the non-empty `{"u0"}` but whose stored
display name is the empty string broadcasts "No one entered the raffle."
and no winner announcement — the claim requires a winner announcement
whenever the set is non-empty, reserving "no one entered" for the empty
set. -/
theorem c4_counterexample :
    (stateOf [("b1", emptyNameState)] "b1").participants ≠ [] ∧
    Effect.send "No one entered the raffle." ∈
      (RaffleComponent.draw_winner [("b1", emptyNameState)] modCtx 0 true).2 ∧
    ¬ ∃ w : String, Effect.send ("The winner is @" ++ w ++ " !! Congratulations!") ∈
      (RaffleComponent.draw_winner [("b1", emptyNameState)] modCtx 0 true).2 := by
  refine ⟨by decide, by decide, ?_⟩
  rintro ⟨w, hw⟩
  have heff : (RaffleComponent.draw_winner [("b1", emptyNameState)] modCtx 0 true).2 =
      [Effect.send "No one entered the raffle.", Effect.dbDelete "b1"] := by decide
  rw [heff] at hw
  simp only [List.mem_cons, List.not_mem_nil, or_false] at hw
  rcases hw with hw | hw
  · have hlen := congrArg String.length (Effect.send.inj hw)
    rw [String.length_append, String.length_append] at hlen
    have h1 : "The winner is @".length = 15 := by decide
    have h2 : " !! Congratulations!".length = 20 := by decide
    have h3 : "No one entered the raffle.".length = 26 := by decide
    rw [h1, h2, h3] at hlen
    omega
  · exact Effect.noConfusion hw

/-- C4 witness: the amended theorem applied to a moderator drawing on a
one-participant ("Bob") closed active raffle. -/
theorem c4_witness :
    stateOf (RaffleComponent.draw_winner [("b1", bobState)] modCtx 0 true).1
      modCtx.broadcaster_id = {} ∧
    Effect.dbDelete modCtx.broadcaster_id ∈
      (RaffleComponent.draw_winner [("b1", bobState)] modCtx 0 true).2 ∧
    ((stateOf [("b1", bobState)] modCtx.broadcaster_id).is_open = true →
      (RaffleComponent.draw_winner [("b1", bobState)] modCtx 0 true).2.head? =
        some (Effect.send "Entries closed.")) ∧
    (match (stateOf [("b1", bobState)] modCtx.broadcaster_id).draw_winner 0 with
     | some w =>
       if w = "" then
         Effect.send "No one entered the raffle." ∈
           (RaffleComponent.draw_winner [("b1", bobState)] modCtx 0 true).2
       else
         Effect.send ("The winner is @" ++ w ++ " !! Congratulations!") ∈
           (RaffleComponent.draw_winner [("b1", bobState)] modCtx 0 true).2
     | none =>
       Effect.send "No one entered the raffle." ∈
         (RaffleComponent.draw_winner [("b1", bobState)] modCtx 0 true).2) :=
  c4_draw_outcome [("b1", bobState)] modCtx 0 true (by decide) (by decide)

/-- A handler outcome that is a pure rejection: exactly one reply to the
caller and every broadcaster's observable raffle state unchanged. -/
def RejectedNoChange (store : RaffleStore) (out : RaffleStore × List Effect) : Prop :=
  (∃ msg, out.2 = [Effect.reply msg]) ∧ ∀ b', stateOf out.1 b' = stateOf store b'

theorem rejected_self (store : RaffleStore) (msg : String) :
    RejectedNoChange store (store, [Effect.reply msg]) :=
  ⟨⟨msg, rfl⟩, fun _ => rfl⟩

theorem rejected_via_get (store : RaffleStore) (b : String) (msg : String) :
    RejectedNoChange store ((get_raffle store b).1, [Effect.reply msg]) :=
  ⟨⟨msg, rfl⟩, fun b' => stateOf_get_raffle_fst store b b'⟩

/-- C5: every authorization failure (caller lacks `can_manage` for start,
end, draw, cancel; caller lacks `is_eligible` for enter) and every
invalid-state failure (start while active; enter while inactive or closed;
end while inactive or closed; draw/cancel while inactive; participants
while inactive) produces exactly one user-visible reply and leaves every
broadcaster's observable raffle state unchanged. -/
theorem c5_rejections (store : RaffleStore) (ctx : Ctx) (bot_id : String) (k : Nat)
    (dbOk : Bool) :
    (can_manage ctx.chatter = false →
      RejectedNoChange store (RaffleComponent.start_raffle store ctx dbOk)) ∧
    (can_manage ctx.chatter = true →
      (stateOf store ctx.broadcaster_id).is_active = true →
      RejectedNoChange store (RaffleComponent.start_raffle store ctx dbOk)) ∧
    (ctx.chatter.id ≠ bot_id →
      (stateOf store ctx.broadcaster_id).is_active = false →
      RejectedNoChange store (RaffleComponent.join_raffle bot_id store ctx dbOk)) ∧
    (ctx.chatter.id ≠ bot_id →
      (stateOf store ctx.broadcaster_id).is_active = true →
      (stateOf store ctx.broadcaster_id).is_open = false →
      RejectedNoChange store (RaffleComponent.join_raffle bot_id store ctx dbOk)) ∧
    (ctx.chatter.id ≠ bot_id →
      (stateOf store ctx.broadcaster_id).is_active = true →
      (stateOf store ctx.broadcaster_id).is_open = true →
      is_eligible ctx.chatter = false →
      RejectedNoChange store (RaffleComponent.join_raffle bot_id store ctx dbOk)) ∧
    (can_manage ctx.chatter = false →
      RejectedNoChange store (RaffleComponent.end_raffle store ctx dbOk)) ∧
    (can_manage ctx.chatter = true →
      (stateOf store ctx.broadcaster_id).is_active = false →
      RejectedNoChange store (RaffleComponent.end_raffle store ctx dbOk)) ∧
    (can_manage ctx.chatter = true →
      (stateOf store ctx.broadcaster_id).is_active = true →
      (stateOf store ctx.broadcaster_id).is_open = false →
      RejectedNoChange store (RaffleComponent.end_raffle store ctx dbOk)) ∧
    (can_manage ctx.chatter = false →
      RejectedNoChange store (RaffleComponent.draw_winner store ctx k dbOk)) ∧
    (can_manage ctx.chatter = true →
      (stateOf store ctx.broadcaster_id).is_active = false →
      RejectedNoChange store (RaffleComponent.draw_winner store ctx k dbOk)) ∧
    (can_manage ctx.chatter = false →
      RejectedNoChange store (RaffleComponent.cancel_raffle store ctx dbOk)) ∧
    (can_manage ctx.chatter = true →
      (stateOf store ctx.broadcaster_id).is_active = false →
      RejectedNoChange store (RaffleComponent.cancel_raffle store ctx dbOk)) ∧
    ((stateOf store ctx.broadcaster_id).is_active = false →
      RejectedNoChange store (RaffleComponent.show_participants store ctx)) := by
  have hr := get_raffle_snd store ctx.broadcaster_id
  refine ⟨?_, ?_, ?_, ?_, ?_, ?_, ?_, ?_, ?_, ?_, ?_, ?_, ?_⟩
  · intro hm
    unfold RaffleComponent.start_raffle
    simp only [hm, Bool.not_false, if_true]
    exact rejected_self store _
  · intro hm hact
    unfold RaffleComponent.start_raffle
    simp only [hm, Bool.not_true, Bool.false_eq_true, if_false, hr, hact, if_true]
    exact rejected_via_get store ctx.broadcaster_id _
  · intro hbot hact
    unfold RaffleComponent.join_raffle
    simp only [if_neg hbot, hr, hact, Bool.not_false, if_true]
    exact rejected_via_get store ctx.broadcaster_id _
  · intro hbot hact hop
    unfold RaffleComponent.join_raffle
    simp only [if_neg hbot, hr, hact, hop, Bool.not_true, Bool.not_false,
      Bool.false_eq_true, if_false, if_true]
    exact rejected_via_get store ctx.broadcaster_id _
  · intro hbot hact hop hel
    unfold RaffleComponent.join_raffle
    simp only [if_neg hbot, hr, hact, hop, hel, Bool.not_true, Bool.not_false,
      Bool.false_eq_true, if_false, if_true]
    exact rejected_via_get store ctx.broadcaster_id _
  · intro hm
    unfold RaffleComponent.end_raffle
    simp only [hm, Bool.not_false, if_true]
    exact rejected_self store _
  · intro hm hact
    unfold RaffleComponent.end_raffle
    simp only [hm, hr, hact, Bool.not_true, Bool.not_false, Bool.false_eq_true,
      if_false, if_true]
    exact rejected_via_get store ctx.broadcaster_id _
  · intro hm hact hop
    unfold RaffleComponent.end_raffle
    simp only [hm, hr, hact, hop, Bool.not_true, Bool.not_false, Bool.false_eq_true,
      if_false, if_true]
    exact rejected_via_get store ctx.broadcaster_id _
  · intro hm
    unfold RaffleComponent.draw_winner
    simp only [hm, Bool.not_false, if_true]
    exact rejected_self store _
  · intro hm hact
    unfold RaffleComponent.draw_winner
    simp only [hm, hr, hact, Bool.not_true, Bool.not_false, Bool.false_eq_true,
      if_false, if_true]
    exact rejected_via_get store ctx.broadcaster_id _
  · intro hm
    unfold RaffleComponent.cancel_raffle
    simp only [hm, Bool.not_false, if_true]
    exact rejected_self store _
  · intro hm hact
    unfold RaffleComponent.cancel_raffle
    simp only [hm, hr, hact, Bool.not_true, Bool.not_false, Bool.false_eq_true,
      if_false, if_true]
    exact rejected_via_get store ctx.broadcaster_id _
  · intro hact
    unfold RaffleComponent.show_participants
    simp only [hr, hact, Bool.not_false, if_true]
    exact rejected_via_get store ctx.broadcaster_id _

/-- C5 witness: two instantiations — a role-less caller is rejected from
`!startraffle` on the empty store, and a moderator's `!endraffle` is
rejected when entries are already closed (`bobState`); both leave all
observable states unchanged. -/
theorem c5_witness :
    RejectedNoChange [] (RaffleComponent.start_raffle [] plebCtx true) ∧
    RejectedNoChange [("b1", bobState)]
      (RaffleComponent.end_raffle [("b1", bobState)] modCtx true) :=
  ⟨(c5_rejections [] plebCtx "bot0" 0 true).1 (by decide),
   (c5_rejections [("b1", bobState)] modCtx "bot0" 0 true).2.2.2.2.2.2.2.1
     (by decide) (by decide) (by decide)⟩

theorem save_raffle_filter (store : RaffleStore) (b : String) (dbOk : Bool) :
    (save_raffle store b dbOk).filter Effect.isChat = [] := by
  unfold save_raffle
  cases dictGet b store <;> cases dbOk <;> simp [Effect.isChat]

theorem delete_raffle_filter (b : String) (dbOk : Bool) :
    (delete_raffle b dbOk).filter Effect.isChat = [] := by
  unfold delete_raffle
  cases dbOk <;> simp [Effect.isChat]

/-- C6: for each of the five mutating handlers, running with a succeeding
persistence adapter and running with a failing one produce the same
resulting store and the same chat-facing effects — a persistence error is
caught and never blocks or rolls back the in-memory change or the chat
output. -/
theorem c6_persistence_best_effort (store : RaffleStore) (ctx : Ctx) (bot_id : String)
    (k : Nat) (db1 db2 : Bool) :
    ((RaffleComponent.start_raffle store ctx db1).1 =
        (RaffleComponent.start_raffle store ctx db2).1 ∧
      (RaffleComponent.start_raffle store ctx db1).2.filter Effect.isChat =
        (RaffleComponent.start_raffle store ctx db2).2.filter Effect.isChat) ∧
    ((RaffleComponent.join_raffle bot_id store ctx db1).1 =
        (RaffleComponent.join_raffle bot_id store ctx db2).1 ∧
      (RaffleComponent.join_raffle bot_id store ctx db1).2.filter Effect.isChat =
        (RaffleComponent.join_raffle bot_id store ctx db2).2.filter Effect.isChat) ∧
    ((RaffleComponent.end_raffle store ctx db1).1 =
        (RaffleComponent.end_raffle store ctx db2).1 ∧
      (RaffleComponent.end_raffle store ctx db1).2.filter Effect.isChat =
        (RaffleComponent.end_raffle store ctx db2).2.filter Effect.isChat) ∧
    ((RaffleComponent.draw_winner store ctx k db1).1 =
        (RaffleComponent.draw_winner store ctx k db2).1 ∧
      (RaffleComponent.draw_winner store ctx k db1).2.filter Effect.isChat =
        (RaffleComponent.draw_winner store ctx k db2).2.filter Effect.isChat) ∧
    ((RaffleComponent.cancel_raffle store ctx db1).1 =
        (RaffleComponent.cancel_raffle store ctx db2).1 ∧
      (RaffleComponent.cancel_raffle store ctx db1).2.filter Effect.isChat =
        (RaffleComponent.cancel_raffle store ctx db2).2.filter Effect.isChat) := by
  refine ⟨?_, ?_, ?_, ?_, ?_⟩
  · unfold RaffleComponent.start_raffle
    cases hm : can_manage ctx.chatter with
    | false => exact ⟨rfl, rfl⟩
    | true =>
      simp only [hm, Bool.not_true, Bool.false_eq_true, if_false]
      cases hact : (get_raffle store ctx.broadcaster_id).2.is_active with
      | true => exact ⟨rfl, rfl⟩
      | false =>
        simp only [hact, Bool.false_eq_true, if_false]
        exact ⟨by trivial, by rw [List.filter_append, List.filter_append,
          save_raffle_filter, save_raffle_filter]⟩
  · unfold RaffleComponent.join_raffle
    by_cases hbot : ctx.chatter.id = bot_id
    · simp only [if_pos hbot]
      exact ⟨by trivial, by trivial⟩
    · simp only [if_neg hbot]
      cases hact : (get_raffle store ctx.broadcaster_id).2.is_active with
      | false => exact ⟨rfl, rfl⟩
      | true =>
        simp only [hact, Bool.not_true, Bool.false_eq_true, if_false]
        cases hop : (get_raffle store ctx.broadcaster_id).2.is_open with
        | false => exact ⟨rfl, rfl⟩
        | true =>
          simp only [hop, Bool.not_true, Bool.false_eq_true, if_false]
          cases hel : is_eligible ctx.chatter with
          | false => exact ⟨rfl, rfl⟩
          | true =>
            simp only [hel, Bool.not_true, Bool.false_eq_true, if_false]
            cases hadd : ((get_raffle store ctx.broadcaster_id).2.add_participant
                ctx.chatter.id ctx.chatter.effectiveName).1 with
            | false => exact ⟨rfl, rfl⟩
            | true =>
              simp only [hadd, if_true]
              exact ⟨by trivial, by rw [save_raffle_filter, save_raffle_filter]⟩
  · unfold RaffleComponent.end_raffle
    cases hm : can_manage ctx.chatter with
    | false => exact ⟨rfl, rfl⟩
    | true =>
      simp only [hm, Bool.not_true, Bool.false_eq_true, if_false]
      cases hact : (get_raffle store ctx.broadcaster_id).2.is_active with
      | false => exact ⟨rfl, rfl⟩
      | true =>
        simp only [hact, Bool.not_true, Bool.false_eq_true, if_false]
        cases hop : (get_raffle store ctx.broadcaster_id).2.is_open with
        | false => exact ⟨rfl, rfl⟩
        | true =>
          simp only [hop, Bool.not_true, Bool.false_eq_true, if_false]
          exact ⟨by trivial, by rw [List.filter_append, List.filter_append,
            save_raffle_filter, save_raffle_filter]⟩
  · unfold RaffleComponent.draw_winner
    cases hm : can_manage ctx.chatter with
    | false => exact ⟨rfl, rfl⟩
    | true =>
      simp only [hm, Bool.not_true, Bool.false_eq_true, if_false]
      cases hact : (get_raffle store ctx.broadcaster_id).2.is_active with
      | false => exact ⟨rfl, rfl⟩
      | true =>
        simp only [hact, Bool.not_true, Bool.false_eq_true, if_false]
        refine ⟨by trivial, ?_⟩
        rw [List.filter_append, List.filter_append, List.filter_append,
          List.filter_append, delete_raffle_filter, delete_raffle_filter]
  · unfold RaffleComponent.cancel_raffle
    cases hm : can_manage ctx.chatter with
    | false => exact ⟨rfl, rfl⟩
    | true =>
      simp only [hm, Bool.not_true, Bool.false_eq_true, if_false]
      cases hact : (get_raffle store ctx.broadcaster_id).2.is_active with
      | false => exact ⟨rfl, rfl⟩
      | true =>
        simp only [hact, Bool.not_true, Bool.false_eq_true, if_false]
        exact ⟨by trivial, by rw [List.filter_append, List.filter_append,
          delete_raffle_filter, delete_raffle_filter]⟩

/-- A fresh active open raffle with no entrants yet. -/
def openState : RaffleState := { is_active := true, is_open := true }

/-- C7 (amended): when every precondition of the enter handler passes
(caller is not the bot, raffle active and open, caller eligible): on a
newly added user id the handler emits NO chat output at all — only the
persistence upsert attempt — and stores the added state; on an already
present user id it replies "... you have already joined", attempts no
upsert, and changes no observable state. -/
theorem c7_join_outcome (bot_id : String) (store : RaffleStore) (ctx : Ctx) (dbOk : Bool)
    (hbot : ctx.chatter.id ≠ bot_id)
    (hact : (stateOf store ctx.broadcaster_id).is_active = true)
    (hop : (stateOf store ctx.broadcaster_id).is_open = true)
    (hel : is_eligible ctx.chatter = true) :
    (ctx.chatter.id ∉ (stateOf store ctx.broadcaster_id).participants →
      (RaffleComponent.join_raffle bot_id store ctx dbOk).2.filter Effect.isChat = [] ∧
      (∃ rec, Effect.dbUpsert ctx.broadcaster_id rec ∈
        (RaffleComponent.join_raffle bot_id store ctx dbOk).2) ∧
      stateOf (RaffleComponent.join_raffle bot_id store ctx dbOk).1 ctx.broadcaster_id =
        ((stateOf store ctx.broadcaster_id).add_participant ctx.chatter.id
          ctx.chatter.effectiveName).2) ∧
    (ctx.chatter.id ∈ (stateOf store ctx.broadcaster_id).participants →
      (RaffleComponent.join_raffle bot_id store ctx dbOk).2 =
        [Effect.reply (ctx.chatter.effectiveName ++ ", you have already joined.")] ∧
      (∀ b rec, Effect.dbUpsert b rec ∉
        (RaffleComponent.join_raffle bot_id store ctx dbOk).2) ∧
      (∀ b', stateOf (RaffleComponent.join_raffle bot_id store ctx dbOk).1 b' =
        stateOf store b')) := by
  have hr := get_raffle_snd store ctx.broadcaster_id
  constructor
  · intro hfresh
    have hadd : ((stateOf store ctx.broadcaster_id).add_participant
        ctx.chatter.id ctx.chatter.effectiveName).1 = true := by
      unfold RaffleState.add_participant
      rw [if_neg hfresh]
    have hout : RaffleComponent.join_raffle bot_id store ctx dbOk =
        (dictInsert ctx.broadcaster_id
          ((stateOf store ctx.broadcaster_id).add_participant ctx.chatter.id
            ctx.chatter.effectiveName).2 (get_raffle store ctx.broadcaster_id).1,
         save_raffle (dictInsert ctx.broadcaster_id
          ((stateOf store ctx.broadcaster_id).add_participant ctx.chatter.id
            ctx.chatter.effectiveName).2 (get_raffle store ctx.broadcaster_id).1)
          ctx.broadcaster_id dbOk) := by
      unfold RaffleComponent.join_raffle
      simp only [if_neg hbot, hr, hact, hop, hel, hadd, Bool.not_true,
        Bool.false_eq_true, if_false, if_true]
    rw [hout]
    refine ⟨save_raffle_filter _ _ _, ?_, ?_⟩
    · refine ⟨((stateOf store ctx.broadcaster_id).add_participant ctx.chatter.id
        ctx.chatter.effectiveName).2.to_db_format, ?_⟩
      unfold save_raffle
      rw [dictGet_dictInsert, if_pos rfl]
      cases dbOk <;> simp
    · rw [stateOf_dictInsert, if_pos rfl]
  · intro hmem
    have hadd : ((stateOf store ctx.broadcaster_id).add_participant
        ctx.chatter.id ctx.chatter.effectiveName).1 = false := by
      unfold RaffleState.add_participant
      rw [if_pos hmem]
    have hout : RaffleComponent.join_raffle bot_id store ctx dbOk =
        ((get_raffle store ctx.broadcaster_id).1,
         [Effect.reply (ctx.chatter.effectiveName ++ ", you have already joined.")]) := by
      unfold RaffleComponent.join_raffle
      simp only [if_neg hbot, hr, hact, hop, hel, hadd, Bool.not_true,
        Bool.false_eq_true, if_false, if_true]
    rw [hout]
    refine ⟨rfl, ?_, fun b' => stateOf_get_raffle_fst store ctx.broadcaster_id b'⟩
    intro b rec hin
    simp only [List.mem_singleton] at hin
    exact Effect.noConfusion hin

/-- C7 counterexample: an eligible subscriber newly joining an open raffle
(all preconditions pass, user id fresh) gets NO reply at all — the
handler's output is just the persistence upsert — contradicting the claim
that a success reply is issued when the user is newly added. -/
theorem c7_counterexample :
    (subCtx.chatter.id ∉ (stateOf [("b1", openState)] "b1").participants) ∧
    ((stateOf [("b1", openState)] "b1").is_active = true ∧
      (stateOf [("b1", openState)] "b1").is_open = true ∧
      is_eligible subCtx.chatter = true) ∧
    ¬ ∃ msg, Effect.reply msg ∈
      (RaffleComponent.join_raffle "bot0" [("b1", openState)] subCtx true).2 := by
  refine ⟨by decide, ⟨by decide, by decide, by decide⟩, ?_⟩
  rintro ⟨msg, hm⟩
  have heff : (RaffleComponent.join_raffle "bot0" [("b1", openState)] subCtx true).2 =
      [Effect.dbUpsert "b1"
        { is_active := some true, is_open := some true,
          participants := some [{ user_id := "s1", display_name := "SubName" }] }] := by
    decide
  rw [heff] at hm
  simp only [List.mem_singleton] at hm
  exact Effect.noConfusion hm

/-- The open raffle after subscriber "s1" has entered. -/
def joinedState : RaffleState :=
  { openState with participants := ["s1"], participant_names := [("s1", "SubName")] }

/-- C7 witness: the amended theorem applied to the subscriber joining the
fresh open raffle (newly added case) and joining again (already-joined
case). -/
theorem c7_witness :
    ((RaffleComponent.join_raffle "bot0" [("b1", openState)] subCtx true).2.filter
      Effect.isChat = [] ∧
     (∃ rec, Effect.dbUpsert subCtx.broadcaster_id rec ∈
       (RaffleComponent.join_raffle "bot0" [("b1", openState)] subCtx true).2) ∧
     stateOf (RaffleComponent.join_raffle "bot0" [("b1", openState)] subCtx true).1
       subCtx.broadcaster_id =
       ((stateOf [("b1", openState)] subCtx.broadcaster_id).add_participant
         subCtx.chatter.id subCtx.chatter.effectiveName).2) ∧
    ((RaffleComponent.join_raffle "bot0" [("b1", joinedState)] subCtx true).2 =
      [Effect.reply (subCtx.chatter.effectiveName ++ ", you have already joined.")]) :=
  ⟨(c7_join_outcome "bot0" [("b1", openState)] subCtx true (by decide) (by decide)
      (by decide) (by decide)).1 (by decide),
   ((c7_join_outcome "bot0" [("b1", joinedState)] subCtx true (by decide)
      (by decide) (by decide) (by decide)).2 (by decide)).1⟩

/-- C8: the participant-count broadcasts of the end and cancel handlers use
the singular form exactly when the count is 1 ("1 participant entered" /
"was entered") and the plural form for every other count, including 0
("participants" / "were entered"). -/
theorem c8_pluralization (c : Nat) :
    end_message 1 = "Entries closed. 1 participant entered." ∧
    cancel_message 1 = "Raffle cancelled. 1 participant was entered." ∧
    (c ≠ 1 →
      end_message c = "Entries closed. " ++ (toString c ++ " participants entered.")) ∧
    (c ≠ 1 →
      cancel_message c =
        "Raffle cancelled. " ++ (toString c ++ " participants were entered.")) := by
  refine ⟨by decide, by decide, ?_, ?_⟩
  · intro h
    have hb : (c != 1) = true := by simpa [bne_iff_ne] using h
    unfold end_message
    simp only [hb, if_true]
    simp only [String.append_assoc]
    congr 1
  · intro h
    have hb : (c != 1) = true := by simpa [bne_iff_ne] using h
    unfold cancel_message
    simp only [hb, if_true]
    simp only [String.append_assoc]
    congr 1

/-- C8 witness: the plural branches instantiated at counts 0 and 2, and the
singular branch at count 1. -/
theorem c8_witness :
    end_message 1 = "Entries closed. 1 participant entered." ∧
    end_message 0 = "Entries closed. " ++ (toString 0 ++ " participants entered.") ∧
    end_message 2 = "Entries closed. " ++ (toString 2 ++ " participants entered.") ∧
    cancel_message 0 =
      "Raffle cancelled. " ++ (toString 0 ++ " participants were entered.") ∧
    cancel_message 2 =
      "Raffle cancelled. " ++ (toString 2 ++ " participants were entered.") :=
  ⟨(c8_pluralization 0).1,
   (c8_pluralization 0).2.2.1 (by decide),
   (c8_pluralization 2).2.2.1 (by decide),
   (c8_pluralization 0).2.2.2 (by decide),
   (c8_pluralization 2).2.2.2 (by decide)⟩


theorem dictInsert_fresh {β : Type} {k : String} (v : β) {d : List (String × β)}
    (h : k ∉ d.map Prod.fst) : dictInsert k v d = d ++ [(k, v)] := by
  induction d with
  | nil => rfl
  | cons p rest ih =>
    obtain ⟨k0, v0⟩ := p
    simp only [List.map_cons, List.mem_cons, not_or] at h
    have hk : k0 ≠ k := fun hh => h.1 hh.symm
    simp only [dictInsert, if_neg hk, List.cons_append, List.cons.injEq, true_and]
    exact ih h.2

theorem dbFold_names (l : List DbParticipant) : ∀ init : RaffleState,
    (l.map DbParticipant.user_id).Nodup →
    (∀ p ∈ l, p.user_id ∉ init.participant_names.map Prod.fst) →
    (l.foldl dbStep init).participant_names =
      init.participant_names ++ l.map (fun p => (p.user_id, p.display_name)) := by
  induction l with
  | nil =>
    intro init _ _
    simp
  | cons p rest ih =>
    intro init hnd hdisj
    have hfresh : p.user_id ∉ init.participant_names.map Prod.fst := hdisj p (by simp)
    have hhead : p.user_id ∉ rest.map DbParticipant.user_id := by
      have hc := hnd
      simp only [List.map_cons, List.nodup_cons] at hc
      exact hc.1
    have hnd' : (rest.map DbParticipant.user_id).Nodup := by
      have hc := hnd
      simp only [List.map_cons, List.nodup_cons] at hc
      exact hc.2
    have hdisj' : ∀ q ∈ rest, q.user_id ∉ (dbStep init p).participant_names.map Prod.fst := by
      intro q hq hmem
      have hqk : (dbStep init p).participant_names =
          dictInsert p.user_id p.display_name init.participant_names := rfl
      rw [hqk, mem_keys_dictInsert] at hmem
      rcases hmem with hmem | hmem
      · exact hhead (hmem ▸ List.mem_map_of_mem DbParticipant.user_id hq)
      · exact hdisj q (List.mem_cons_of_mem p hq) hmem
    rw [List.foldl_cons, ih (dbStep init p) hnd' hdisj']
    have hstep : (dbStep init p).participant_names =
        init.participant_names ++ [(p.user_id, p.display_name)] := by
      show dictInsert p.user_id p.display_name init.participant_names = _
      exact dictInsert_fresh _ hfresh
    rw [hstep, List.append_assoc]
    simp

theorem db_map_roundtrip (l : List (String × String)) :
    ((l.map fun p => DbParticipant.mk p.1 p.2).map fun p => (p.user_id, p.display_name)) =
      l := by
  induction l with
  | nil => rfl
  | cons p rest ih => simp [ih]

theorem db_map_keys (l : List (String × String)) :
    (l.map fun p => DbParticipant.mk p.1 p.2).map DbParticipant.user_id =
      l.map Prod.fst := by
  induction l with
  | nil => rfl
  | cons p rest ih => simp [ih]

/-- C9: round trip through the database format — for every state whose
`participant_names` keys are duplicate-free (as any Python dict's are) and
whose `participants` set equals that key set, `from_db_format (to_db_format
s)` reproduces `s`: identical flags, identical `participant_names`, and a
`participants` list with exactly the same members. -/
theorem c9_roundtrip (s : RaffleState)
    (hn : (s.participant_names.map Prod.fst).Nodup)
    (hkeys : ∀ x, x ∈ s.participants ↔ x ∈ s.participant_names.map Prod.fst) :
    (RaffleState.from_db_format s.to_db_format).is_active = s.is_active ∧
    (RaffleState.from_db_format s.to_db_format).is_open = s.is_open ∧
    (RaffleState.from_db_format s.to_db_format).participant_names =
      s.participant_names ∧
    (∀ x, x ∈ (RaffleState.from_db_format s.to_db_format).participants ↔
      x ∈ s.participants) := by
  refine ⟨?_, ?_, ?_, ?_⟩
  · unfold RaffleState.from_db_format RaffleState.to_db_format
    dsimp only [Option.getD_some]
    rw [dbFold_is_active]
  · unfold RaffleState.from_db_format RaffleState.to_db_format
    dsimp only [Option.getD_some]
    rw [dbFold_is_open]
  · unfold RaffleState.from_db_format RaffleState.to_db_format
    dsimp only [Option.getD_some]
    rw [dbFold_names _ _ (by rw [db_map_keys]; exact hn) (by intro p _ hmem; simp at hmem)]
    simp only [List.nil_append]
    exact db_map_roundtrip s.participant_names
  · intro x
    unfold RaffleState.from_db_format RaffleState.to_db_format
    dsimp only [Option.getD_some]
    rw [mem_dbFold_participants, db_map_keys]
    simp only [List.not_mem_nil, false_or]
    exact (hkeys x).symm

/-- C9 witness: the round trip applied to the concrete one-participant
state `aliceState`. -/
theorem c9_witness :
    (RaffleState.from_db_format aliceState.to_db_format).is_active =
      aliceState.is_active ∧
    (RaffleState.from_db_format aliceState.to_db_format).is_open =
      aliceState.is_open ∧
    (RaffleState.from_db_format aliceState.to_db_format).participant_names =
      aliceState.participant_names ∧
    (∀ x, x ∈ (RaffleState.from_db_format aliceState.to_db_format).participants ↔
      x ∈ aliceState.participants) :=
  c9_roundtrip aliceState (by decide) (fun x => Iff.rfl)

theorem get_raffle_self_isSome (store : RaffleStore) (b : String) :
    (dictGet b (get_raffle store b).1).isSome = true := by
  rw [dictGet_get_raffle_fst, if_pos rfl]
  rfl

theorem isSome_get_raffle_fst (store : RaffleStore) (b b' : String)
    (h : (dictGet b' store).isSome = true) :
    (dictGet b' (get_raffle store b).1).isSome = true := by
  rw [dictGet_get_raffle_fst]
  split
  · rfl
  · exact h

theorem isSome_dictInsert {β : Type} (k b' : String) (v : β) (d : List (String × β))
    (h : (dictGet b' d).isSome = true) :
    (dictGet b' (dictInsert k v d)).isSome = true := by
  rw [dictGet_dictInsert]
  split
  · rfl
  · exact h

theorem dictGet_dictInsert_self {β : Type} (k : String) (v : β) (d : List (String × β)) :
    dictGet k (dictInsert k v d) = some v := by
  rw [dictGet_dictInsert, if_pos rfl]

/-- C10 (amended): the enter and participants handlers always leave a store
entry for the addressed broadcaster (their lookup precedes every check,
including enter's bot-self check); end, draw, and cancel do so only when
the caller passes `can_manage` — a caller failing that check is rejected
before the lookup, so no entry is created; no handler ever removes a store
key; and draw and cancel on an active raffle keep the entry, resetting the
state in place to the default. -/
theorem c10_store_keys (bot_id : String) (store : RaffleStore) (ctx : Ctx) (k : Nat)
    (dbOk : Bool) :
    ((dictGet ctx.broadcaster_id
        (RaffleComponent.join_raffle bot_id store ctx dbOk).1).isSome = true) ∧
    ((dictGet ctx.broadcaster_id
        (RaffleComponent.show_participants store ctx).1).isSome = true) ∧
    (can_manage ctx.chatter = true →
      (dictGet ctx.broadcaster_id
        (RaffleComponent.end_raffle store ctx dbOk).1).isSome = true) ∧
    (can_manage ctx.chatter = true →
      (dictGet ctx.broadcaster_id
        (RaffleComponent.draw_winner store ctx k dbOk).1).isSome = true) ∧
    (can_manage ctx.chatter = true →
      (dictGet ctx.broadcaster_id
        (RaffleComponent.cancel_raffle store ctx dbOk).1).isSome = true) ∧
    (∀ b', (dictGet b' store).isSome = true →
      (dictGet b' (RaffleComponent.start_raffle store ctx dbOk).1).isSome = true ∧
      (dictGet b' (RaffleComponent.join_raffle bot_id store ctx dbOk).1).isSome = true ∧
      (dictGet b' (RaffleComponent.end_raffle store ctx dbOk).1).isSome = true ∧
      (dictGet b' (RaffleComponent.draw_winner store ctx k dbOk).1).isSome = true ∧
      (dictGet b' (RaffleComponent.cancel_raffle store ctx dbOk).1).isSome = true ∧
      (dictGet b' (RaffleComponent.show_participants store ctx).1).isSome = true) ∧
    (can_manage ctx.chatter = true →
      (stateOf store ctx.broadcaster_id).is_active = true →
      dictGet ctx.broadcaster_id (RaffleComponent.draw_winner store ctx k dbOk).1 =
        some {} ∧
      dictGet ctx.broadcaster_id (RaffleComponent.cancel_raffle store ctx dbOk).1 =
        some {}) := by
  have hr := get_raffle_snd store ctx.broadcaster_id
  refine ⟨?_, ?_, ?_, ?_, ?_, ?_, ?_⟩
  · unfold RaffleComponent.join_raffle
    by_cases hbot : ctx.chatter.id = bot_id
    · simpa [hbot] using get_raffle_self_isSome store ctx.broadcaster_id
    · simp only [if_neg hbot]
      cases hact : (get_raffle store ctx.broadcaster_id).2.is_active with
      | false => simpa [hact] using get_raffle_self_isSome store ctx.broadcaster_id
      | true =>
        simp only [hact, Bool.not_true, Bool.false_eq_true, if_false]
        cases hop : (get_raffle store ctx.broadcaster_id).2.is_open with
        | false => simpa [hop] using get_raffle_self_isSome store ctx.broadcaster_id
        | true =>
          simp only [hop, Bool.not_true, Bool.false_eq_true, if_false]
          cases hel : is_eligible ctx.chatter with
          | false => simpa [hel] using get_raffle_self_isSome store ctx.broadcaster_id
          | true =>
            simp only [hel, Bool.not_true, Bool.false_eq_true, if_false]
            cases hadd : ((get_raffle store ctx.broadcaster_id).2.add_participant
                ctx.chatter.id ctx.chatter.effectiveName).1 with
            | false => simpa [hadd] using get_raffle_self_isSome store ctx.broadcaster_id
            | true =>
              simp only [hadd, if_true]
              rw [dictGet_dictInsert_self]
              rfl
  · unfold RaffleComponent.show_participants
    cases hact : (get_raffle store ctx.broadcaster_id).2.is_active with
    | false => simpa [hact] using get_raffle_self_isSome store ctx.broadcaster_id
    | true => simpa [hact] using get_raffle_self_isSome store ctx.broadcaster_id
  · intro hm
    unfold RaffleComponent.end_raffle
    simp only [hm, Bool.not_true, Bool.false_eq_true, if_false]
    cases hact : (get_raffle store ctx.broadcaster_id).2.is_active with
    | false => simpa [hact] using get_raffle_self_isSome store ctx.broadcaster_id
    | true =>
      simp only [hact, Bool.not_true, Bool.false_eq_true, if_false]
      cases hop : (get_raffle store ctx.broadcaster_id).2.is_open with
      | false => simpa [hop] using get_raffle_self_isSome store ctx.broadcaster_id
      | true =>
        simp only [hop, Bool.not_true, Bool.false_eq_true, if_false]
        rw [dictGet_dictInsert_self]
        rfl
  · intro hm
    unfold RaffleComponent.draw_winner
    simp only [hm, Bool.not_true, Bool.false_eq_true, if_false]
    cases hact : (get_raffle store ctx.broadcaster_id).2.is_active with
    | false => simpa [hact] using get_raffle_self_isSome store ctx.broadcaster_id
    | true =>
      simp only [hact, Bool.not_true, Bool.false_eq_true, if_false]
      rw [dictGet_dictInsert_self]
      rfl
  · intro hm
    unfold RaffleComponent.cancel_raffle
    simp only [hm, Bool.not_true, Bool.false_eq_true, if_false]
    cases hact : (get_raffle store ctx.broadcaster_id).2.is_active with
    | false => simpa [hact] using get_raffle_self_isSome store ctx.broadcaster_id
    | true =>
      simp only [hact, Bool.not_true, Bool.false_eq_true, if_false]
      rw [dictGet_dictInsert_self]
      rfl
  · intro b' hb'
    refine ⟨?_, ?_, ?_, ?_, ?_, ?_⟩
    · unfold RaffleComponent.start_raffle
      cases hm : can_manage ctx.chatter with
      | false => simpa [hm] using hb'
      | true =>
        simp only [hm, Bool.not_true, Bool.false_eq_true, if_false]
        cases hact : (get_raffle store ctx.broadcaster_id).2.is_active with
        | true => simpa [hact] using isSome_get_raffle_fst store ctx.broadcaster_id b' hb'
        | false =>
          simp only [hact, Bool.false_eq_true, if_false]
          exact isSome_dictInsert _ _ _ _
            (isSome_get_raffle_fst store ctx.broadcaster_id b' hb')
    · unfold RaffleComponent.join_raffle
      by_cases hbot : ctx.chatter.id = bot_id
      · simpa [hbot] using isSome_get_raffle_fst store ctx.broadcaster_id b' hb'
      · simp only [if_neg hbot]
        cases hact : (get_raffle store ctx.broadcaster_id).2.is_active with
        | false => simpa [hact] using isSome_get_raffle_fst store ctx.broadcaster_id b' hb'
        | true =>
          simp only [hact, Bool.not_true, Bool.false_eq_true, if_false]
          cases hop : (get_raffle store ctx.broadcaster_id).2.is_open with
          | false => simpa [hop] using isSome_get_raffle_fst store ctx.broadcaster_id b' hb'
          | true =>
            simp only [hop, Bool.not_true, Bool.false_eq_true, if_false]
            cases hel : is_eligible ctx.chatter with
            | false => simpa [hel] using isSome_get_raffle_fst store ctx.broadcaster_id b' hb'
            | true =>
              simp only [hel, Bool.not_true, Bool.false_eq_true, if_false]
              cases hadd : ((get_raffle store ctx.broadcaster_id).2.add_participant
                  ctx.chatter.id ctx.chatter.effectiveName).1 with
              | false =>
                simpa [hadd] using isSome_get_raffle_fst store ctx.broadcaster_id b' hb'
              | true =>
                simp only [hadd, if_true]
                exact isSome_dictInsert _ _ _ _
                  (isSome_get_raffle_fst store ctx.broadcaster_id b' hb')
    · unfold RaffleComponent.end_raffle
      cases hm : can_manage ctx.chatter with
      | false => simpa [hm] using hb'
      | true =>
        simp only [hm, Bool.not_true, Bool.false_eq_true, if_false]
        cases hact : (get_raffle store ctx.broadcaster_id).2.is_active with
        | false => simpa [hact] using isSome_get_raffle_fst store ctx.broadcaster_id b' hb'
        | true =>
          simp only [hact, Bool.not_true, Bool.false_eq_true, if_false]
          cases hop : (get_raffle store ctx.broadcaster_id).2.is_open with
          | false => simpa [hop] using isSome_get_raffle_fst store ctx.broadcaster_id b' hb'
          | true =>
            simp only [hop, Bool.not_true, Bool.false_eq_true, if_false]
            exact isSome_dictInsert _ _ _ _
              (isSome_get_raffle_fst store ctx.broadcaster_id b' hb')
    · unfold RaffleComponent.draw_winner
      cases hm : can_manage ctx.chatter with
      | false => simpa [hm] using hb'
      | true =>
        simp only [hm, Bool.not_true, Bool.false_eq_true, if_false]
        cases hact : (get_raffle store ctx.broadcaster_id).2.is_active with
        | false => simpa [hact] using isSome_get_raffle_fst store ctx.broadcaster_id b' hb'
        | true =>
          simp only [hact, Bool.not_true, Bool.false_eq_true, if_false]
          exact isSome_dictInsert _ _ _ _ (isSome_dictInsert _ _ _ _
            (isSome_get_raffle_fst store ctx.broadcaster_id b' hb'))
    · unfold RaffleComponent.cancel_raffle
      cases hm : can_manage ctx.chatter with
      | false => simpa [hm] using hb'
      | true =>
        simp only [hm, Bool.not_true, Bool.false_eq_true, if_false]
        cases hact : (get_raffle store ctx.broadcaster_id).2.is_active with
        | false => simpa [hact] using isSome_get_raffle_fst store ctx.broadcaster_id b' hb'
        | true =>
          simp only [hact, Bool.not_true, Bool.false_eq_true, if_false]
          exact isSome_dictInsert _ _ _ _
            (isSome_get_raffle_fst store ctx.broadcaster_id b' hb')
    · unfold RaffleComponent.show_participants
      cases hact : (get_raffle store ctx.broadcaster_id).2.is_active with
      | false => simpa [hact] using isSome_get_raffle_fst store ctx.broadcaster_id b' hb'
      | true => simpa [hact] using isSome_get_raffle_fst store ctx.broadcaster_id b' hb'
  · intro hm hact
    constructor
    · rw [draw_handler_eq store ctx k dbOk hm hact]
      exact dictGet_dictInsert_self _ _ _
    · unfold RaffleComponent.cancel_raffle
      simp only [hm, Bool.not_true, Bool.false_eq_true, if_false, hr, hact, if_true]
      exact dictGet_dictInsert_self _ _ _

/-- C10 counterexample: a role-less caller's `!endraffle` on the empty
store is rejected before the store lookup, so NO entry is created for the
broadcaster — contradicting the claim that the lookup creates an entry
even when the command is rejected, for the end (and likewise draw/cancel)
handlers. -/
theorem c10_counterexample :
    dictGet "b1" (RaffleComponent.end_raffle [] plebCtx true).1 = none ∧
    dictGet "b1" (RaffleComponent.draw_winner [] plebCtx 0 true).1 = none ∧
    dictGet "b1" (RaffleComponent.cancel_raffle [] plebCtx true).1 = none := by
  refine ⟨by decide, by decide, by decide⟩

/-- C10 witness: the amended theorem applied concretely — a role-less
caller's rejected `!enter` on the empty store still creates the entry, a
moderator's rejected `!endraffle` on the empty store creates it too, and a
moderator's `!cancelraffle` on an active raffle keeps the entry with the
state reset in place. -/
theorem c10_witness :
    (dictGet plebCtx.broadcaster_id
      (RaffleComponent.join_raffle "bot0" [] plebCtx true).1).isSome = true ∧
    (dictGet modCtx.broadcaster_id
      (RaffleComponent.end_raffle [] modCtx true).1).isSome = true ∧
    dictGet modCtx.broadcaster_id
      (RaffleComponent.cancel_raffle [("b1", bobState)] modCtx true).1 = some {} :=
  ⟨(c10_store_keys "bot0" [] plebCtx 0 true).1,
   (c10_store_keys "bot0" [] modCtx 0 true).2.2.1 (by decide),
   ((c10_store_keys "bot0" [("b1", bobState)] modCtx 0 true).2.2.2.2.2.2
     (by decide) (by decide)).2⟩
